import Mathlib

/-
  Verification of the visitor-session state machine and connection/broadcast
  layer of src/backend/server.py (admin-pan-main).

  Shallow embedding conventions:
  - Mongo documents become Lean structures; the visitor/page collections become
    lists ordered by insertion (find_one returns the first match, update_one
    updates the first match, delete_one erases the first match).
  - Fields that may be absent or null in a document are `Option`-valued; fields
    that are always present before first read (or whose Python reads use
    `get(..., default)` with a constant default) carry that default directly.
  - HTTPException raises become `Except.error`; 404 is `Err.notFound`,
    400 "Must provide 2-6 page IDs" is `Err.invalidArgument`,
    400 "Visitor is not in rotation mode" is `Err.invalidState`.
    A Python runtime crash (ZeroDivisionError from `% 0`, TypeError from
    `len(None)`) is `Err.pyError`.
  - WebSocket sends become a success predicate `ok : Conn → Bool`; the
    ConnectionManager methods return the list of connections that received the
    payload together with the updated manager.
  - Timestamps are abstract `Nat` ticks supplied by the caller (now_iso()).
  - External collaborators that are out of scope (Mongo alert collection,
    Telegram, geolocation) are reduced to their observable effect on this
    core: `create_alert`/`send_telegram` appear only as emitted events.
-/

namespace AP

/-- A page document as created by create_page in src/backend/server.py. -/
structure Page where
  id : String
  name : String
  content : String
  is_default : Bool
  created_at : Nat
  updated_at : Nat
deriving DecidableEq

/-- A visitor document as created by register_visitor, plus the rotation
fields written by approve_visitor_with_rotation / stop_page_rotation.
`rotation_pages = none` covers both "field absent" and "field set to null";
`current_page_index` and `is_rotating` carry the defaults their Python reads
use (`get("current_page_index", 0)`, falsy `get("is_rotating")`). -/
structure Visitor where
  id : String
  session_id : String
  status : String
  page_id : Option String
  is_bot : Bool
  bot_score : Nat
  is_rotating : Bool
  rotation_pages : Option (List String)
  rotation_interval : Int
  current_page_index : Nat
  created_at : Nat
  last_seen : Nat
deriving DecidableEq

/-- The slice of the Mongo store the session state machine touches. -/
structure DB where
  visitors : List Visitor
  pages : List Page
deriving DecidableEq

def emptyDB : DB := ⟨[], []⟩

/-- Error taxonomy of the endpoint handlers (see file header). -/
inductive Err where
  | notFound
  | invalidArgument
  | invalidState
  | pyError
deriving DecidableEq

/-- Events pushed through the ConnectionManager by the endpoint handlers. -/
inductive Event where
  | newVisitor (visitorId : String)
  | approvedEv (sessionId : String) (content : Option String)
  | approvedRot (sessionId : String) (content : Option String)
      (pageIds : List String) (intervalMs : Int) (idx : Nat)
  | rotatePage (sessionId : String) (content : Option String) (idx : Nat) (total : Nat)
  | stopRotationEv (sessionId : String) (content : Option String)
  | blockedEv (sessionId : String)
  | visitorUpdated (visitorId : String) (status : String) (rotationMode : Option Bool)
  | visitorDeleted (visitorId : String)
  | newAlert (msg : String)
deriving DecidableEq

/-- Python string truthiness for an optional string field: None and "" are
falsy, everything else is kept. -/
def strTruthy : Option String → Option String
  | none => none
  | some s => if s = "" then none else some s

/-- update_one with a {"$set": ...} document: apply `f` to the first element
matching `p`, leave the rest untouched. -/
def updateFirst (p : α → Bool) (f : α → α) : List α → List α
  | [] => []
  | x :: xs => if p x then f x :: xs else x :: updateFirst p f xs

/-- db.visitors.find_one({"id": visitor_id}). -/
def find_visitor_by_id (db : DB) (visitor_id : String) : Option Visitor :=
  db.visitors.find? fun v => v.id == visitor_id

/-- db.visitors.find_one({"session_id": session_id}). -/
def find_visitor_by_session (db : DB) (session_id : String) : Option Visitor :=
  db.visitors.find? fun v => v.session_id == session_id

/-- db.pages.find_one({"id": page_id}). -/
def find_page (db : DB) (page_id : String) : Option Page :=
  db.pages.find? fun p => p.id == page_id

/-- db.pages.find_one({"is_default": True}). -/
def find_default_page (db : DB) : Option Page :=
  db.pages.find? fun p => p.is_default

/-- BOT_PATTERNS from src/backend/server.py. -/
def BOT_PATTERNS : List String :=
  ["bot", "crawler", "spider", "scraper", "python-requests", "python-urllib",
   "curl/", "wget/", "httpie/", "go-http", "java/", "ruby", "perl/",
   "scrapy", "mechanize", "selenium", "phantomjs", "headless",
   "postman", "insomnia", "httpclient", "okhttp", "libwww", "node-fetch"]

/-- Python's `pattern in string` on code-point lists: some tail of the
haystack starts with the needle. -/
def containsSub (needle hay : List Nat) : Bool :=
  hay.tails.any fun t => needle.isPrefixOf t

/-- ASCII lowercasing on a code point (the BOT_PATTERNS are pure ASCII). -/
def lowerCode (n : Nat) : Nat :=
  if 65 ≤ n ∧ n ≤ 90 then n + 32 else n

/-- A string as a list of lowercased code points. -/
def lowerCodes (s : String) : List Nat :=
  s.data.map fun c => lowerCode c.toNat

/-- detect_bot from src/backend/server.py; the confidence score is scaled to
hundredths (0.9 becomes 90) to stay in exact arithmetic, and `.lower()` is
modelled as ASCII lowercasing of code points. -/
def detect_bot (user_agent : String) : Bool × Nat :=
  if user_agent.length < 10 then (true, 90)
  else if BOT_PATTERNS.any (fun p => containsSub (lowerCodes p) (lowerCodes user_agent))
  then (true, 85)
  else (false, 0)

/-- register_visitor (POST /visitors/register): refresh last_seen and return
the previously fetched record when the session_id is known, otherwise insert a
fresh pending visitor and broadcast new_visitor (plus the new_alert of
create_alert). Returns (new store, emitted events, response body). -/
def register_visitor (db : DB) (session_id newId user_agent : String) (now : Nat) :
    DB × List Event × Visitor :=
  match find_visitor_by_session db session_id with
  | some existing =>
      let vs := updateFirst (fun v => v.session_id == session_id)
        (fun v => { v with last_seen := now }) db.visitors
      ({ db with visitors := vs }, [], existing)
  | none =>
      let bot := detect_bot user_agent
      let visitor : Visitor :=
        { id := newId, session_id := session_id, status := "pending", page_id := none,
          is_bot := bot.1, bot_score := bot.2, is_rotating := false,
          rotation_pages := none, rotation_interval := 0, current_page_index := 0,
          created_at := now, last_seen := now }
      ({ db with visitors := db.visitors ++ [visitor] },
       [Event.newVisitor newId, Event.newAlert "new visitor"], visitor)

/-- approve_visitor (PUT /visitors/id/approve): 404 on unknown id; sets
status/last_seen, sets page_id only when the body carries a truthy page_id;
then resolves content from body.page_id or the stored page_id (falling back to
the default page) and emits approved / visitor_updated / new_alert. -/
def approve_visitor (db : DB) (visitor_id : String) (body_page_id : Option String)
    (now : Nat) : Except Err (DB × List Event) :=
  match find_visitor_by_id db visitor_id with
  | none => .error .notFound
  | some visitor =>
      let setPid := strTruthy body_page_id
      let upd : Visitor → Visitor := fun v =>
        match setPid with
        | some pid => { v with status := "approved", last_seen := now, page_id := some pid }
        | none => { v with status := "approved", last_seen := now }
      let dbA : DB :=
        { db with visitors := updateFirst (fun v => v.id == visitor_id) upd db.visitors }
      let pid : Option String :=
        match setPid with
        | some p => some p
        | none => strTruthy visitor.page_id
      let page : Option Page :=
        match pid with
        | some p => find_page dbA p
        | none => find_default_page dbA
      .ok (dbA,
        [Event.approvedEv visitor.session_id (page.map (·.content)),
         Event.visitorUpdated visitor_id "approved" none,
         Event.newAlert "visitor approved"])

/-- approve_visitor_with_rotation (PUT /visitors/id/approve/rotate): 404 on
unknown id, 400 unless 2-6 page ids, 404 if any page id is unknown; then sets
the rotation fields with current_page_index 0 and emits the approved event
with rotation_mode plus visitor_updated / new_alert. -/
def approve_visitor_with_rotation (db : DB) (visitor_id : String)
    (page_ids : List String) (interval_ms : Int) (now : Nat) :
    Except Err (DB × List Event) :=
  match find_visitor_by_id db visitor_id with
  | none => .error .notFound
  | some visitor =>
      if page_ids.isEmpty || page_ids.length < 2 || page_ids.length > 6 then
        .error .invalidArgument
      else if page_ids.any fun pid => (find_page db pid).isNone then
        .error .notFound
      else
        let upd : Visitor → Visitor := fun v =>
          { v with status := "approved", last_seen := now,
                   rotation_pages := some page_ids, rotation_interval := interval_ms,
                   current_page_index := 0, is_rotating := true }
        let dbA : DB :=
          { db with visitors := updateFirst (fun v => v.id == visitor_id) upd db.visitors }
        let firstPage : Option Page :=
          match page_ids.head? with
          | some p => find_page dbA p
          | none => none
        .ok (dbA,
          [Event.approvedRot visitor.session_id (firstPage.map (·.content))
             page_ids interval_ms 0,
           Event.visitorUpdated visitor_id "approved" (some true),
           Event.newAlert "visitor approved with rotation"])

/-- rotate_to_next_page (PUT /visitors/id/rotation/next): 404 on unknown id,
400 when not rotating; otherwise next_index = (current+1) mod len, stored
together with last_seen, and rotate_page is pushed to the session only.
When is_rotating is set but rotation_pages is null/absent or empty the Python
handler crashes (TypeError on len(None), or ZeroDivisionError on mod 0):
modelled as Err.pyError. Returns the (index, total) response payload too. -/
def rotate_to_next_page (db : DB) (visitor_id : String) (now : Nat) :
    Except Err (DB × List Event × Nat × Nat) :=
  match find_visitor_by_id db visitor_id with
  | none => .error .notFound
  | some visitor =>
      if !visitor.is_rotating then .error .invalidState
      else
        match visitor.rotation_pages with
        | none => .error .pyError
        | some pages =>
            if h : pages.length = 0 then .error .pyError
            else
              let next_index := (visitor.current_page_index + 1) % pages.length
              let vs := updateFirst (fun v => v.id == visitor_id)
                (fun v => { v with current_page_index := next_index, last_seen := now })
                db.visitors
              let dbA : DB := { db with visitors := vs }
              let next_page_id := pages.get ⟨next_index, Nat.mod_lt _ (Nat.pos_of_ne_zero h)⟩
              .ok (dbA,
                [Event.rotatePage visitor.session_id
                   ((find_page dbA next_page_id).map (·.content)) next_index pages.length],
                next_index, pages.length)

/-- stop_page_rotation (PUT /visitors/id/rotation/stop): 404 on unknown id;
clears is_rotating/rotation_pages and resets current_page_index, then computes
the frozen content from the PRE-update snapshot (truthy rotation_pages and
in-range index) and emits stop_rotation / visitor_updated / new_alert. -/
def stop_page_rotation (db : DB) (visitor_id : String) (now : Nat) :
    Except Err (DB × List Event) :=
  match find_visitor_by_id db visitor_id with
  | none => .error .notFound
  | some visitor =>
      let upd : Visitor → Visitor := fun v =>
        { v with is_rotating := false, rotation_pages := none,
                 current_page_index := 0, last_seen := now }
      let vs := updateFirst (fun v => v.id == visitor_id) upd db.visitors
      let dbA : DB := { db with visitors := vs }
      let content : Option String :=
        match visitor.rotation_pages with
        | none => none
        | some pages =>
            if pages.isEmpty then none
            else if h : visitor.current_page_index < pages.length then
              (find_page db (pages.get ⟨visitor.current_page_index, h⟩)).map (·.content)
            else none
      .ok (dbA,
        [Event.stopRotationEv visitor.session_id content,
         Event.visitorUpdated visitor_id "approved" (some false),
         Event.newAlert "rotation stopped"])

/-- block_visitor (PUT /visitors/id/block): 404 on unknown id; sets only
status and last_seen, and emits blocked / visitor_updated / new_alert. -/
def block_visitor (db : DB) (visitor_id : String) (now : Nat) :
    Except Err (DB × List Event) :=
  match find_visitor_by_id db visitor_id with
  | none => .error .notFound
  | some visitor =>
      let vs := updateFirst (fun v => v.id == visitor_id)
        (fun v => { v with status := "blocked", last_seen := now }) db.visitors
      let dbA : DB := { db with visitors := vs }
      .ok (dbA,
        [Event.blockedEv visitor.session_id,
         Event.visitorUpdated visitor_id "blocked" none,
         Event.newAlert "visitor blocked"])

/-- delete_visitor (DELETE /visitors/id): unconditional delete_one plus the
visitor_deleted broadcast. -/
def delete_visitor (db : DB) (visitor_id : String) : DB × List Event :=
  ({ db with visitors := db.visitors.eraseP fun v => v.id == visitor_id },
   [Event.visitorDeleted visitor_id])

/-- Response body of the status poll; `page_content = none` models the key
being absent from the JSON response. -/
structure StatusView where
  status : String
  page_content : Option String
deriving DecidableEq

/-- get_visitor_status (GET /visitors/session_id/status): 404 on unknown
session_id; for an approved visitor the content comes from the truthy
page_id, else the default page; no write to the store is performed. -/
def get_visitor_status (db : DB) (session_id : String) : Except Err StatusView :=
  match find_visitor_by_session db session_id with
  | none => .error .notFound
  | some visitor =>
      if visitor.status == "approved" then
        let page : Option Page :=
          match strTruthy visitor.page_id with
          | some pid => find_page db pid
          | none => find_default_page db
        .ok ⟨visitor.status, page.map (·.content)⟩
      else
        .ok ⟨visitor.status, none⟩

/-- create_page (POST /pages): an is_default page first clears every other
default flag; the new page is appended. -/
def create_page (db : DB) (newId name content : String) (is_default : Bool)
    (now : Nat) : DB × List Event :=
  let db0 : DB :=
    if is_default then
      { db with pages := db.pages.map fun p => { p with is_default := false } }
    else db
  let page : Page :=
    { id := newId, name := name, content := content, is_default := is_default,
      created_at := now, updated_at := now }
  ({ db0 with pages := db0.pages ++ [page] }, [Event.newAlert "page created"])

/-- update_page (PUT /pages/id): optional field updates; setting is_default
true first clears every default flag. -/
def update_page (db : DB) (page_id : String) (newName newContent : Option String)
    (newDefault : Option Bool) (now : Nat) : DB × List Event :=
  let db0 : DB :=
    match newDefault with
    | some true => { db with pages := db.pages.map fun p => { p with is_default := false } }
    | _ => db
  let upd : Page → Page := fun p =>
    let p1 := { p with updated_at := now }
    let p2 := match newName with | some n => { p1 with name := n } | none => p1
    let p3 := match newContent with | some c => { p2 with content := c } | none => p2
    match newDefault with | some b => { p3 with is_default := b } | none => p3
  ({ db0 with pages := updateFirst (fun p => p.id == page_id) upd db0.pages },
   [Event.newAlert "page updated"])

/-- delete_page (DELETE /pages/id). -/
def delete_page (db : DB) (page_id : String) : DB :=
  { db with pages := db.pages.eraseP fun p => p.id == page_id }

-- ── ConnectionManager ────────────────────────────────────────────────────────

/-- A live WebSocket connection, identified only by identity. -/
abbrev Conn := Nat

/-- Insert-or-replace for the visitor_connections dict (one value per key). -/
def dictInsert (k : String) (v : Conn) : List (String × Conn) → List (String × Conn)
  | [] => [(k, v)]
  | (k2, v2) :: rest => if k2 == k then (k, v) :: rest else (k2, v2) :: dictInsert k v rest

/-- dict.get(k). -/
def dictLookup (k : String) : List (String × Conn) → Option Conn
  | [] => none
  | (k2, v2) :: rest => if k2 == k then some v2 else dictLookup k rest

/-- dict.pop(k, None). -/
def dictPop (k : String) : List (String × Conn) → List (String × Conn)
  | [] => []
  | (k2, v2) :: rest => if k2 == k then rest else (k2, v2) :: dictPop k rest

/-- ConnectionManager from src/backend/server.py: a list of admin sockets and
a session_id-keyed dict holding ONE visitor socket per session. -/
structure ConnectionManager where
  admin_connections : List Conn
  visitor_connections : List (String × Conn)
deriving DecidableEq

def emptyManager : ConnectionManager := ⟨[], []⟩

/-- ConnectionManager.connect_admin: unconditional append. -/
def connect_admin (m : ConnectionManager) (ws : Conn) : ConnectionManager :=
  { m with admin_connections := m.admin_connections ++ [ws] }

/-- ConnectionManager.disconnect_admin: remove the first occurrence if present. -/
def disconnect_admin (m : ConnectionManager) (ws : Conn) : ConnectionManager :=
  if m.admin_connections.contains ws then
    { m with admin_connections := m.admin_connections.erase ws }
  else m

/-- ConnectionManager.connect_visitor: `self.visitor_connections[session_id] = ws`,
replacing any previously stored socket for that session. -/
def connect_visitor (m : ConnectionManager) (session_id : String) (ws : Conn) :
    ConnectionManager :=
  { m with visitor_connections := dictInsert session_id ws m.visitor_connections }

/-- ConnectionManager.disconnect_visitor: pop the key. -/
def disconnect_visitor (m : ConnectionManager) (session_id : String) : ConnectionManager :=
  { m with visitor_connections := dictPop session_id m.visitor_connections }

/-- ConnectionManager.broadcast_admins with send outcomes `ok`: every send is
attempted, failures are collected in `dead` and then removed one occurrence at
a time (List.diff is exactly that removal loop). Returns (delivered, manager). -/
def broadcast_admins (m : ConnectionManager) (ok : Conn → Bool) :
    List Conn × ConnectionManager :=
  let dead := m.admin_connections.filter fun ws => !ok ws
  (m.admin_connections.filter ok,
   { m with admin_connections := m.admin_connections.diff dead })

/-- ConnectionManager.notify_visitor with send outcomes `ok`: at most the one
stored socket is sent to; on failure the session key is popped. -/
def notify_visitor (m : ConnectionManager) (session_id : String) (ok : Conn → Bool) :
    List Conn × ConnectionManager :=
  match dictLookup session_id m.visitor_connections with
  | none => ([], m)
  | some ws =>
      if ok ws then ([ws], m)
      else ([], { m with visitor_connections := dictPop session_id m.visitor_connections })

/-- Route one emitted event through the manager the way the handlers do
(visitor events via notify_visitor, observer events via broadcast_admins);
send failures are swallowed inside the manager. -/
def deliver (m : ConnectionManager) (ok : Conn → Bool) : Event → ConnectionManager
  | .newVisitor _ => (broadcast_admins m ok).2
  | .approvedEv sid _ => (notify_visitor m sid ok).2
  | .approvedRot sid _ _ _ _ => (notify_visitor m sid ok).2
  | .rotatePage sid _ _ _ => (notify_visitor m sid ok).2
  | .stopRotationEv sid _ => (notify_visitor m sid ok).2
  | .blockedEv sid => (notify_visitor m sid ok).2
  | .visitorUpdated _ _ _ => (broadcast_admins m ok).2
  | .visitorDeleted _ => (broadcast_admins m ok).2
  | .newAlert _ => (broadcast_admins m ok).2

def deliverAll (m : ConnectionManager) (ok : Conn → Bool) (evs : List Event) :
    ConnectionManager :=
  evs.foldl (fun acc e => deliver acc ok e) m

/-- A whole state-mutating request: run the handler; on error nothing was
written and nothing is sent; on success the new store stands and the events
are pushed best-effort. The third component is the HTTP outcome. -/
def handle (db : DB) (m : ConnectionManager) (ok : Conn → Bool)
    (op : DB → Except Err (DB × List Event)) :
    DB × ConnectionManager × Except Err Unit :=
  match op db with
  | .error e => (db, m, .error e)
  | .ok (dbA, evs) => (dbA, deliverAll m ok evs, .ok ())

/-- Store resulting from a fallible handler (unchanged on error). -/
def effDB (db : DB) (r : Except Err (DB × List Event)) : DB :=
  match r with
  | .ok (dbA, _) => dbA
  | .error _ => db

/-- Events emitted by a fallible handler (none on error). -/
def effEvents (r : Except Err (DB × List Event)) : List Event :=
  match r with
  | .ok (_, evs) => evs
  | .error _ => []

/-- Store resulting from rotate_to_next_page (whose payload also carries the
index/total response). -/
def effDB3 (db : DB) (r : Except Err (DB × List Event × Nat × Nat)) : DB :=
  match r with
  | .ok (dbA, _) => dbA
  | .error _ => db

/-- Boolean success test for a handler result. -/
def isOkE : Except Err α → Bool
  | .ok _ => true
  | .error _ => false

instance {ε α : Type} [DecidableEq ε] [DecidableEq α] : DecidableEq (Except ε α) := fun a b =>
  match a, b with
  | .error e, .error f =>
      if h : e = f then .isTrue (h ▸ rfl) else .isFalse fun hh => h (Except.error.inj hh)
  | .error _, .ok _ => .isFalse fun hh => nomatch hh
  | .ok _, .error _ => .isFalse fun hh => nomatch hh
  | .ok x, .ok y =>
      if h : x = y then .isTrue (h ▸ rfl) else .isFalse fun hh => h (Except.ok.inj hh)

-- ── Reachability ─────────────────────────────────────────────────────────────

/-- One API call that can change the store. -/
inductive Step : DB → DB → Prop where
  | register {db : DB} (sid newId ua : String) (now : Nat) :
      Step db (register_visitor db sid newId ua now).1
  | approve {db : DB} (id : String) (pid : Option String) (now : Nat) :
      Step db (effDB db (approve_visitor db id pid now))
  | approveRot {db : DB} (id : String) (pids : List String) (iv : Int) (now : Nat) :
      Step db (effDB db (approve_visitor_with_rotation db id pids iv now))
  | rotate {db : DB} (id : String) (now : Nat) :
      Step db (effDB3 db (rotate_to_next_page db id now))
  | stopRot {db : DB} (id : String) (now : Nat) :
      Step db (effDB db (stop_page_rotation db id now))
  | block {db : DB} (id : String) (now : Nat) :
      Step db (effDB db (block_visitor db id now))
  | deleteV {db : DB} (id : String) :
      Step db (delete_visitor db id).1
  | createP {db : DB} (newId name content : String) (d : Bool) (now : Nat) :
      Step db (create_page db newId name content d now).1
  | updateP {db : DB} (pid : String) (n c : Option String) (d : Option Bool) (now : Nat) :
      Step db (update_page db pid n c d now).1
  | deleteP {db : DB} (pid : String) :
      Step db (delete_page db pid)

/-- Stores reachable from the empty store by API calls. -/
inductive Reachable : DB → Prop where
  | init : Reachable emptyDB
  | step {db db' : DB} : Reachable db → Step db db' → Reachable db'

/-- The rotation well-formedness invariant of a single visitor record. -/
def RotInv (v : Visitor) : Prop :=
  v.is_rotating = true →
    ∃ pages, v.rotation_pages = some pages ∧ 2 ≤ pages.length ∧
      pages.length ≤ 6 ∧ v.current_page_index < pages.length

-- ── Concrete fixture (built exclusively through the operations) ──────────────

def db1 : DB := (create_page emptyDB "pd" "default page" "DEFAULT" true 0).1
def db2 : DB := (create_page db1 "p1" "page one" "ONE" false 0).1
def db3 : DB := (create_page db2 "p2" "page two" "TWO" false 0).1
def db4 : DB := (register_visitor db3 "s1" "v1" "Mozilla/5.0 TestClient 01" 1).1
def db5 : DB := effDB db4 (approve_visitor_with_rotation db4 "v1" ["p1", "p2"] 4000 2)
def db6 : DB := effDB3 db5 (rotate_to_next_page db5 "v1" 3)
def db7 : DB := effDB db6 (stop_page_rotation db6 "v1" 4)
def db8 : DB := effDB db6 (block_visitor db6 "v1" 4)
def db9 : DB := effDB db6 (approve_visitor db6 "v1" none 4)

/-- The visitor record stored in db6 (after register, rotation approval over
p1/p2 and one rotation step). -/
def v6 : Visitor :=
  { id := "v1", session_id := "s1", status := "approved", page_id := none,
    is_bot := false, bot_score := 0, is_rotating := true,
    rotation_pages := some ["p1", "p2"], rotation_interval := 4000,
    current_page_index := 1, created_at := 1, last_seen := 3 }

/-- The visitor record stored in db4 (freshly registered, pending). -/
def v4 : Visitor :=
  { id := "v1", session_id := "s1", status := "pending", page_id := none,
    is_bot := false, bot_score := 0, is_rotating := false,
    rotation_pages := none, rotation_interval := 0, current_page_index := 0,
    created_at := 1, last_seen := 1 }

-- ── Helper lemmas ────────────────────────────────────────────────────────────

/-- find? after updateFirst with the same predicate: the found element is the
updated one, provided the update preserves the predicate. -/
theorem find?_updateFirst (p : α → Bool) (f : α → α) (l : List α)
    (hf : ∀ x, p x = true → p (f x) = true) :
    List.find? p (updateFirst p f l) = (List.find? p l).map f := by
  induction l with
  | nil => rfl
  | cons x xs ih =>
    by_cases hx : p x = true
    · rw [updateFirst]
      simp only [hx, if_true, List.find?_cons_of_pos _ hx, List.find?_cons_of_pos _ (hf x hx),
        Option.map_some']
    · have hx2 : p x = false := by simpa using hx
      rw [updateFirst]
      simp only [hx2, Bool.false_eq_true, if_false]
      rw [List.find?_cons_of_neg _ (by simp [hx2]), List.find?_cons_of_neg _ (by simp [hx2])]
      exact ih

/-- Every member of updateFirst p f l is an old member or the image under f
of the first match — exactly the element find? returns. -/
theorem mem_updateFirst {p : α → Bool} {f : α → α} {l : List α} {x : α}
    (h : x ∈ updateFirst p f l) :
    x ∈ l ∨ ∃ y, List.find? p l = some y ∧ x = f y := by
  induction l with
  | nil => simp [updateFirst] at h
  | cons a as ih =>
    rw [updateFirst] at h
    by_cases ha : p a = true
    · simp only [ha, if_true, List.mem_cons] at h
      rcases h with h | h
      · exact Or.inr ⟨a, List.find?_cons_of_pos _ ha, h⟩
      · exact Or.inl (List.mem_cons_of_mem a h)
    · have ha2 : p a = false := by simpa using ha
      simp only [ha2, Bool.false_eq_true, if_false, List.mem_cons] at h
      rcases h with h | h
      · exact Or.inl (h ▸ List.mem_cons_self a as)
      · rcases ih h with h2 | ⟨y, hy, hxy⟩
        · exact Or.inl (List.mem_cons_of_mem a h2)
        · refine Or.inr ⟨y, ?_, hxy⟩
          rw [List.find?_cons_of_neg _ (by simp [ha2])]
          exact hy

/-- Looking up a key right after inserting it yields the inserted value. -/
theorem dictLookup_dictInsert (k : String) (v : Conn) (l : List (String × Conn)) :
    dictLookup k (dictInsert k v l) = some v := by
  induction l with
  | nil => simp [dictInsert, dictLookup]
  | cons x xs ih =>
    obtain ⟨k2, v2⟩ := x
    by_cases h : (k2 == k) = true
    · simp [dictInsert, dictLookup, h]
    · simp [dictInsert, dictLookup, h, ih]

-- ── C1 ───────────────────────────────────────────────────────────────────────

/-- Content-resolution rule the status poll actually implements: status
verbatim; for an approved visitor the content of the truthy page_id, else of
the default page; rotation state plays no part. -/
def resolveNonRotating (db : DB) (status : String) (page_id : Option String) : StatusView :=
  if status == "approved" then
    let page : Option Page :=
      match strTruthy page_id with
      | some pid => find_page db pid
      | none => find_default_page db
    ⟨status, page.map (·.content)⟩
  else ⟨status, none⟩

/-- C1 counterexample: in store db6 the session s1 is approved and actively
rotating over p1,p2 with current index 1 (page p2, content "TWO"), yet the
status poll returns the default page content "DEFAULT"; after stopRotation
(db7) the poll still returns "DEFAULT", not the frozen "TWO". So the claim
that the poll resolves the rotation page (and the frozen page after stop) is
false on the code. -/
theorem C1_counterexample :
    (find_visitor_by_id db6 "v1").map Visitor.status = some "approved" ∧
    (find_visitor_by_id db6 "v1").map Visitor.is_rotating = some true ∧
    (find_visitor_by_id db6 "v1").map Visitor.rotation_pages = some (some ["p1", "p2"]) ∧
    (find_visitor_by_id db6 "v1").map Visitor.current_page_index = some 1 ∧
    (find_page db6 "p2").map Page.content = some "TWO" ∧
    get_visitor_status db6 "s1" = .ok ⟨"approved", some "DEFAULT"⟩ ∧
    get_visitor_status db7 "s1" = .ok ⟨"approved", some "DEFAULT"⟩ ∧
    (some "DEFAULT" : Option String) ≠ some "TWO" := by
  decide

/-- C1 (amended): the status(sessionId) poll of get_visitor_status is a pure
read-only projection that resolves content from the explicit truthy pageId if
set, else the default page — ignoring rotation entirely, so during active
rotation and after stopRotation it serves the pageId/default content, not the
rotation page; it mutates no session state (it is a function of the store). -/
theorem C1_status_poll (db : DB) (sid : String) (v : Visitor)
    (h : find_visitor_by_session db sid = some v) :
    get_visitor_status db sid = .ok (resolveNonRotating db v.status v.page_id) := by
  unfold get_visitor_status resolveNonRotating
  rw [h]
  by_cases hs : (v.status == "approved") = true <;> simp [hs]

/-- C1 witness: the amended theorem applied to the rotating fixture. -/
theorem C1_status_poll_witness :
    get_visitor_status db6 "s1" = .ok (resolveNonRotating db6 v6.status v6.page_id) :=
  C1_status_poll db6 "s1" v6 (by decide)

-- ── C2 ───────────────────────────────────────────────────────────────────────

/-- C2 counterexample: attaching two connections under the same sessionId
leaves only the most recent one in the registry, and a session event is
delivered only to that one — the registry does not support many simultaneous
connections per session. -/
theorem C2_counterexample :
    (connect_visitor (connect_visitor emptyManager "s1" 1) "s1" 2).visitor_connections
      = [("s1", 2)] ∧
    (notify_visitor (connect_visitor (connect_visitor emptyManager "s1" 1) "s1" 2) "s1"
      (fun _ => true)).1 = [2] := by
  decide

/-- C2 (amended): the Connection Registry keeps at most ONE visitor connection
per sessionId — connect_visitor stores the new socket under the key,
replacing any previous one — and toSession (notify_visitor) delivers the
event to exactly that most recently attached connection when its send
succeeds (and to nobody otherwise), not to every previously attached one. -/
theorem C2_single_connection (m : ConnectionManager) (sid : String) (ws : Conn)
    (ok : Conn → Bool) :
    dictLookup sid (connect_visitor m sid ws).visitor_connections = some ws ∧
    (notify_visitor (connect_visitor m sid ws) sid ok).1
      = (if ok ws then [ws] else []) := by
  refine ⟨dictLookup_dictInsert sid ws m.visitor_connections, ?_⟩
  unfold notify_visitor connect_visitor
  rw [show ({ m with visitor_connections := dictInsert sid ws m.visitor_connections } :
        ConnectionManager).visitor_connections = dictInsert sid ws m.visitor_connections
      from rfl]
  rw [dictLookup_dictInsert]
  by_cases h : ok ws = true <;> simp [h]

-- ── C3 ───────────────────────────────────────────────────────────────────────

/-- C3 counterexample: in reachable store db8 (register, approve with
rotation, rotate once, then block) the session is simultaneously blocked and
actively rotating, and rotateNext even still succeeds on it — block does not
force rotation.active to false, so the claimed invariant preservation fails. -/
theorem C3_counterexample :
    (find_visitor_by_id db8 "v1").map Visitor.status = some "blocked" ∧
    (find_visitor_by_id db8 "v1").map Visitor.is_rotating = some true ∧
    isOkE (rotate_to_next_page db8 "v1" 5) = true := by
  decide

/-- C3 (amended): block(id) fails with NotFound exactly when id is unknown;
on an existing session it sets status = blocked and refreshes last_seen but
leaves every rotation field (including the active flag) unchanged, so a
blocked session can remain actively rotating and the invariant
rotation.active ⇒ status = approved is NOT preserved by block. -/
theorem C3_block (db : DB) (id : String) (now : Nat) :
    (find_visitor_by_id db id = none → block_visitor db id now = .error .notFound) ∧
    (∀ v, find_visitor_by_id db id = some v →
      find_visitor_by_id (effDB db (block_visitor db id now)) id
        = some { v with status := "blocked", last_seen := now }) := by
  constructor
  · intro h
    unfold block_visitor
    rw [h]
  · intro v h
    have h' : List.find? (fun w => w.id == id) db.visitors = some v := h
    simp only [block_visitor, effDB, find_visitor_by_id, h']
    rw [find?_updateFirst (fun w => w.id == id)
        (fun w => { w with status := "blocked", last_seen := now }) db.visitors
        (fun x hx => hx), h']
    rfl

/-- C3 witness: blocking the rotating fixture yields the record with only
status and last_seen changed. -/
theorem C3_block_witness :
    find_visitor_by_id (effDB db6 (block_visitor db6 "v1" 4)) "v1"
      = some { v6 with status := "blocked", last_seen := 4 } :=
  (C3_block db6 "v1" 4).2 v6 (by decide)

-- ── C4 ───────────────────────────────────────────────────────────────────────

/-- C4 counterexample: plain approve on the actively rotating session of db6
leaves is_rotating true (store db9) — approve does not clear active rotation,
contradicting the claim that rotation.active is false after the call. -/
theorem C4_counterexample :
    (find_visitor_by_id db9 "v1").map Visitor.status = some "approved" ∧
    (find_visitor_by_id db9 "v1").map Visitor.is_rotating = some true ∧
    (find_visitor_by_id db9 "v1").map Visitor.rotation_pages = some (some ["p1", "p2"]) := by
  decide

/-- C4 (amended): approve(id, pageId?) fails with NotFound exactly when id is
unknown; on an existing session it sets status = approved and last_seen, sets
page_id only when a truthy (non-empty) pageId is supplied and otherwise
leaves the stored page_id unchanged — and it leaves all rotation fields
(including an active rotation) untouched rather than clearing them. -/
theorem C4_approve (db : DB) (id : String) (pid : Option String) (now : Nat) :
    (find_visitor_by_id db id = none → approve_visitor db id pid now = .error .notFound) ∧
    (∀ v, find_visitor_by_id db id = some v →
      find_visitor_by_id (effDB db (approve_visitor db id pid now)) id
        = some (match strTruthy pid with
                | some p => { v with status := "approved", last_seen := now, page_id := some p }
                | none => { v with status := "approved", last_seen := now })) := by
  constructor
  · intro h
    unfold approve_visitor
    rw [h]
  · intro v h
    have h' : List.find? (fun w => w.id == id) db.visitors = some v := h
    simp only [approve_visitor, effDB, find_visitor_by_id, h']
    cases hp : strTruthy pid with
    | none =>
        simp only [hp]
        rw [find?_updateFirst (fun w => w.id == id)
            (fun w => { w with status := "approved", last_seen := now }) db.visitors
            (fun x hx => hx), h']
        rfl
    | some p =>
        simp only [hp]
        rw [find?_updateFirst (fun w => w.id == id)
            (fun w => { w with status := "approved", last_seen := now, page_id := some p })
            db.visitors (fun x hx => hx), h']
        rfl

/-- C4 witness: approving the rotating fixture without a pageId leaves the
rotation fields in place. -/
theorem C4_approve_witness :
    find_visitor_by_id (effDB db6 (approve_visitor db6 "v1" none 4)) "v1"
      = some { v6 with status := "approved", last_seen := 4 } :=
  (C4_approve db6 "v1" none 4).2 v6 (by decide)

-- ── C5 ───────────────────────────────────────────────────────────────────────

/-- C5: approveWithRotation rejects with InvalidArgument every pageIds list of
length below 2 or above 6 (for an existing session), with NotFound when the
id is unknown, and with NotFound when the length is admissible but some entry
resolves to no existing page; and any rejected call leaves the store — hence
the session's status and rotation fields — exactly unchanged. -/
theorem C5_rotation_rejections (db : DB) (id : String) (pids : List String)
    (iv : Int) (now : Nat) :
    ((find_visitor_by_id db id).isSome = true → pids.length < 2 ∨ pids.length > 6 →
      approve_visitor_with_rotation db id pids iv now = .error .invalidArgument) ∧
    (find_visitor_by_id db id = none →
      approve_visitor_with_rotation db id pids iv now = .error .notFound) ∧
    ((find_visitor_by_id db id).isSome = true → 2 ≤ pids.length → pids.length ≤ 6 →
      (∃ p ∈ pids, find_page db p = none) →
      approve_visitor_with_rotation db id pids iv now = .error .notFound) ∧
    (∀ e, approve_visitor_with_rotation db id pids iv now = .error e →
      effDB db (approve_visitor_with_rotation db id pids iv now) = db) := by
  refine ⟨?_, ?_, ?_, ?_⟩
  · intro hsome hlen
    obtain ⟨v, hv⟩ := Option.isSome_iff_exists.mp hsome
    simp only [approve_visitor_with_rotation, hv]
    rcases hlen with hl | hl <;> simp [hl]
  · intro h
    simp only [approve_visitor_with_rotation, h]
  · intro hsome h2 h6 hmiss
    obtain ⟨v, hv⟩ := Option.isSome_iff_exists.mp hsome
    obtain ⟨p, hp, hnone⟩ := hmiss
    have hne : pids.isEmpty = false := by
      cases pids with
      | nil => simp at h2
      | cons a as => rfl
    have hany : (pids.any fun pid => (find_page db pid).isNone) = true := by
      rw [List.any_eq_true]
      exact ⟨p, hp, by simp [hnone]⟩
    simp only [approve_visitor_with_rotation, hv, hne]
    have hc2 : ¬ pids.length < 2 := by omega
    have hc6 : ¬ pids.length > 6 := by omega
    simp [hc2, hc6, hany]
  · intro e he
    unfold effDB
    rw [he]

/-- C5 witness: a 1-page rotation request on the registered pending visitor
is rejected with InvalidArgument. -/
theorem C5_rotation_rejections_witness :
    approve_visitor_with_rotation db4 "v1" ["p1"] 5000 9 = .error .invalidArgument :=
  (C5_rotation_rejections db4 "v1" ["p1"] 5000 9).1 (by decide) (by decide)

-- ── C6 ───────────────────────────────────────────────────────────────────────

/-- The (index, total) payload of a rotate_to_next_page response. -/
def rotRet (r : Except Err (DB × List Event × Nat × Nat)) : Option (Nat × Nat) :=
  match r with
  | .ok (_, _, i, t) => some (i, t)
  | .error _ => none

/-- A successful rotation step: the stored record advances its index to
(current + 1) mod length and refreshes last_seen, everything else unchanged. -/
theorem rotate_success_find (db : DB) (id : String) (now : Nat) (v : Visitor)
    (pages : List String) (h : find_visitor_by_id db id = some v)
    (hrot : v.is_rotating = true) (hp : v.rotation_pages = some pages)
    (hlen : pages.length ≠ 0) :
    find_visitor_by_id (effDB3 db (rotate_to_next_page db id now)) id
      = some { v with current_page_index := (v.current_page_index + 1) % pages.length, last_seen := now } := by
  have h' : List.find? (fun w => w.id == id) db.visitors = some v := h
  simp only [rotate_to_next_page, h, h', hrot, Bool.not_true, Bool.false_eq_true, if_false,
    hp, dif_neg hlen, effDB3, find_visitor_by_id]
  rw [find?_updateFirst (fun w => w.id == id)
      (fun w => { w with current_page_index := (v.current_page_index + 1) % pages.length, last_seen := now })
      db.visitors (fun x hx => hx), h']
  simp [hrot, hp]

/-- The (index, total) returned by a successful rotation step. -/
theorem rotate_success_ret (db : DB) (id : String) (now : Nat) (v : Visitor)
    (pages : List String) (h : find_visitor_by_id db id = some v)
    (hrot : v.is_rotating = true) (hp : v.rotation_pages = some pages)
    (hlen : pages.length ≠ 0) :
    rotRet (rotate_to_next_page db id now)
      = some ((v.current_page_index + 1) % pages.length, pages.length) := by
  simp only [rotate_to_next_page, h, hrot, Bool.not_true, Bool.false_eq_true, if_false,
    hp, dif_neg hlen, rotRet]

/-- k rotation steps in a row on the same session. -/
def rotateIter (id : String) (now : Nat) : Nat → DB → DB
  | 0, db => db
  | k+1, db => rotateIter id now k (effDB3 db (rotate_to_next_page db id now))

/-- After k rotation steps the stored index is (start + k) mod length, and
the rotation configuration is untouched. -/
theorem rotateIter_find (id : String) (now : Nat) (pages : List String)
    (hlen : pages.length ≠ 0) :
    ∀ (k : Nat) (db : DB) (v : Visitor),
      find_visitor_by_id db id = some v → v.is_rotating = true →
      v.rotation_pages = some pages → v.current_page_index < pages.length →
      ∃ w, find_visitor_by_id (rotateIter id now k db) id = some w ∧
        w.is_rotating = true ∧ w.rotation_pages = some pages ∧
        w.current_page_index = (v.current_page_index + k) % pages.length := by
  intro k
  induction k with
  | zero =>
      intro db v h hrot hp hi
      exact ⟨v, h, hrot, hp, by rw [Nat.add_zero, Nat.mod_eq_of_lt hi]⟩
  | succ k ih =>
      intro db v h hrot hp hi
      have hstep := rotate_success_find db id now v pages h hrot hp hlen
      rw [rotateIter]
      obtain ⟨w, hw, hwrot, hwp, hwidx⟩ :=
        ih (effDB3 db (rotate_to_next_page db id now))
          { v with current_page_index := (v.current_page_index + 1) % pages.length, last_seen := now }
          hstep hrot hp (Nat.mod_lt _ (Nat.pos_of_ne_zero hlen))
      refine ⟨w, hw, hwrot, hwp, ?_⟩
      rw [hwidx]
      show ((v.current_page_index + 1) % pages.length + k) % pages.length
          = (v.current_page_index + (k + 1)) % pages.length
      rw [Nat.mod_add_mod]
      have : v.current_page_index + 1 + k = v.current_page_index + (k + 1) := by omega
      rw [this]

/-- C6: rotateNext fails with InvalidState (store untouched) when the session
is not in active rotation; on an actively rotating session with a well-formed
index it returns ((current+1) mod N, N), stores that index (which is again in
[0, N)), and N consecutive rotateNext calls bring the index back to its
starting value. -/
theorem C6_rotate_next (db : DB) (id : String) (now : Nat) (v : Visitor)
    (pages : List String) (h : find_visitor_by_id db id = some v) :
    (v.is_rotating = false →
      rotate_to_next_page db id now = .error .invalidState ∧
      effDB3 db (rotate_to_next_page db id now) = db) ∧
    (v.is_rotating = true → v.rotation_pages = some pages →
     v.current_page_index < pages.length →
      rotRet (rotate_to_next_page db id now)
        = some ((v.current_page_index + 1) % pages.length, pages.length) ∧
      (v.current_page_index + 1) % pages.length < pages.length ∧
      find_visitor_by_id (effDB3 db (rotate_to_next_page db id now)) id
        = some { v with current_page_index := (v.current_page_index + 1) % pages.length, last_seen := now } ∧
      (find_visitor_by_id (rotateIter id now pages.length db) id).map
          Visitor.current_page_index = some v.current_page_index) := by
  constructor
  · intro hrot
    constructor
    · simp [rotate_to_next_page, h, hrot]
    · simp [rotate_to_next_page, h, hrot, effDB3]
  · intro hrot hp hi
    have hlen : pages.length ≠ 0 := by omega
    refine ⟨rotate_success_ret db id now v pages h hrot hp hlen,
      Nat.mod_lt _ (Nat.pos_of_ne_zero hlen),
      rotate_success_find db id now v pages h hrot hp hlen, ?_⟩
    obtain ⟨w, hw, _, _, hwidx⟩ :=
      rotateIter_find id now pages hlen pages.length db v h hrot hp hi
    rw [hw]
    simp only [Option.map_some', hwidx, Nat.add_mod_right, Nat.mod_eq_of_lt hi]

/-- C6 witness: one rotation step on the rotating fixture db5 (index 0 over
p1,p2) returns (1, 2), stores index 1, and 2 consecutive steps return the
index to 0. -/
theorem C6_rotate_next_witness :
    rotRet (rotate_to_next_page db5 "v1" 3) = some (1, 2) ∧
    (find_visitor_by_id (rotateIter "v1" 3 2 db5) "v1").map Visitor.current_page_index
      = some 0 := by
  have hv : find_visitor_by_id db5 "v1"
      = some { v6 with current_page_index := 0, last_seen := 2 } := by decide
  have hmain := C6_rotate_next db5 "v1" 3
    { v6 with current_page_index := 0, last_seen := 2 } ["p1", "p2"] hv
  obtain ⟨hret, _, _, hcirc⟩ := hmain.2 (by decide) (by decide) (by decide)
  exact ⟨hret, hcirc⟩

-- ── C7 ───────────────────────────────────────────────────────────────────────

/-- C7: register is idempotent per sessionId — when a session already exists,
register returns that very record (same id), emits NO events (in particular
no new_visitor), and the only stored change is last_seen := now; on first
creation the new_visitor event is emitted. -/
theorem C7_register_idempotent (db : DB) (sid newId ua : String) (now : Nat) :
    (∀ v, find_visitor_by_session db sid = some v →
      (register_visitor db sid newId ua now).2.2 = v ∧
      (register_visitor db sid newId ua now).2.1 = [] ∧
      find_visitor_by_session (register_visitor db sid newId ua now).1 sid
        = some { v with last_seen := now }) ∧
    (find_visitor_by_session db sid = none →
      (register_visitor db sid newId ua now).2.1
        = [Event.newVisitor newId, Event.newAlert "new visitor"]) := by
  constructor
  · intro v h
    have h' : List.find? (fun w => w.session_id == sid) db.visitors = some v := h
    refine ⟨?_, ?_, ?_⟩
    · simp only [register_visitor, h]
    · simp only [register_visitor, h]
    · simp only [register_visitor, h, h', find_visitor_by_session]
      rw [find?_updateFirst (fun w => w.session_id == sid)
          (fun w => { w with last_seen := now }) db.visitors (fun x hx => hx), h']
      rfl
  · intro h
    simp only [register_visitor, h]

/-- C7 witness: re-registering s1 on db4 returns the stored pending record,
emits nothing, and only advances last_seen. -/
theorem C7_register_idempotent_witness :
    (register_visitor db4 "s1" "v9" "Mozilla/5.0 TestClient 01" 7).2.2 = v4 ∧
    (register_visitor db4 "s1" "v9" "Mozilla/5.0 TestClient 01" 7).2.1 = [] ∧
    find_visitor_by_session (register_visitor db4 "s1" "v9" "Mozilla/5.0 TestClient 01" 7).1 "s1"
      = some { v4 with last_seen := 7 } :=
  (C7_register_idempotent db4 "s1" "v9" "Mozilla/5.0 TestClient 01" 7).1 v4 (by decide)

-- ── C8 ───────────────────────────────────────────────────────────────────────

/-- C8: broadcast_admins sends to every attached observer — the delivered set
is exactly the observers whose send succeeds, so one connection's failure
never blocks delivery to the others — and (for a duplicate-free connection
list, the case of distinct connection objects) the registry afterwards holds
exactly the surviving observers: every failed connection is detached by the
call. -/
theorem C8_broadcast_isolation (m : ConnectionManager) (ok : Conn → Bool) :
    (broadcast_admins m ok).1 = m.admin_connections.filter ok ∧
    (∀ c, c ∈ m.admin_connections → ok c = true → c ∈ (broadcast_admins m ok).1) ∧
    (m.admin_connections.Nodup →
      (broadcast_admins m ok).2.admin_connections = m.admin_connections.filter ok) := by
  refine ⟨rfl, ?_, ?_⟩
  · intro c hc hok
    show c ∈ m.admin_connections.filter ok
    rw [List.mem_filter]
    exact ⟨hc, hok⟩
  · intro hnd
    show m.admin_connections.diff (m.admin_connections.filter fun ws => !ok ws)
        = m.admin_connections.filter ok
    rw [hnd.diff_eq_filter]
    apply List.filter_congr
    intro x hx
    by_cases hok : ok x = true
    · simp [hok, List.mem_filter]
    · have h2 : ok x = false := by simpa using hok
      simp [h2, List.mem_filter, hx]

/-- C8 witness: two observers, connection 1 dead: the broadcast still reaches
connection 2 and the registry afterwards holds exactly [2] — the observer
count drops by exactly one. -/
theorem C8_broadcast_isolation_witness :
    (2 : Conn) ∈ (broadcast_admins ⟨[1, 2], []⟩ (fun c => c == 2)).1 ∧
    (broadcast_admins ⟨[1, 2], []⟩ (fun c => c == 2)).2.admin_connections
      = ([1, 2] : List Conn).filter (fun c => c == 2) := by
  constructor
  · exact (C8_broadcast_isolation ⟨[1, 2], []⟩ (fun c => c == 2)).2.1 2
      (by decide) (by decide)
  · exact (C8_broadcast_isolation ⟨[1, 2], []⟩ (fun c => c == 2)).2.2 (by decide)

-- ── C9 ───────────────────────────────────────────────────────────────────────

/-- The atomicity contract of one state-mutating handler `op` run through the
full request pipeline: the stored outcome and the HTTP response are the same
under any two transport-send outcome predicates (send failures are swallowed
by the manager, never surfaced); a rejected call leaves the store untouched
and emits nothing; a successful call installs the new store and emits at
least one event. -/
def AtomicContract (db : DB) (m : ConnectionManager) (ok okB : Conn → Bool)
    (op : DB → Except Err (DB × List Event)) : Prop :=
  (handle db m ok op).1 = (handle db m okB op).1 ∧
  (handle db m ok op).2.2 = (handle db m okB op).2.2 ∧
  (∀ e, op db = .error e → effDB db (op db) = db ∧ effEvents (op db) = []) ∧
  (∀ dbA evs, op db = .ok (dbA, evs) → effDB db (op db) = dbA ∧ evs ≠ [])

/-- rotate_to_next_page seen as a plain (store, events) handler. -/
def rotate_op (id : String) (now : Nat) (db : DB) : Except Err (DB × List Event) :=
  match rotate_to_next_page db id now with
  | .ok (dbA, evs, _, _) => .ok (dbA, evs)
  | .error e => .error e

/-- The transport-independence and error-atomicity parts of the contract hold
for any handler, by the pipeline's structure (state first, best-effort sends
after). -/
theorem handle_generic (db : DB) (m : ConnectionManager) (ok okB : Conn → Bool)
    (op : DB → Except Err (DB × List Event)) :
    (handle db m ok op).1 = (handle db m okB op).1 ∧
    (handle db m ok op).2.2 = (handle db m okB op).2.2 ∧
    (∀ e, op db = .error e → effDB db (op db) = db ∧ effEvents (op db) = []) ∧
    (∀ dbA evs, op db = .ok (dbA, evs) → effDB db (op db) = dbA) := by
  refine ⟨?_, ?_, ?_, ?_⟩
  · cases hres : op db <;> simp [handle, hres]
  · cases hres : op db <;> simp [handle, hres]
  · intro e he
    simp [effDB, effEvents, he]
  · intro dbA evs he
    simp [effDB, he]

/-- A successful approve emits events. -/
theorem approve_events_nonempty (db : DB) (id : String) (pid : Option String)
    (now : Nat) (dbA : DB) (evs : List Event)
    (h : approve_visitor db id pid now = .ok (dbA, evs)) : evs ≠ [] := by
  unfold approve_visitor at h
  repeat' split at h
  all_goals (try simp at h)
  all_goals (obtain ⟨h1, h2⟩ := h; subst h2; simp)

/-- A successful approve-with-rotation emits events. -/
theorem approveRot_events_nonempty (db : DB) (id : String) (pids : List String)
    (iv : Int) (now : Nat) (dbA : DB) (evs : List Event)
    (h : approve_visitor_with_rotation db id pids iv now = .ok (dbA, evs)) : evs ≠ [] := by
  unfold approve_visitor_with_rotation at h
  repeat' split at h
  all_goals (try simp at h)
  all_goals (obtain ⟨h1, h2⟩ := h; subst h2; simp)

/-- A successful rotation step emits events. -/
theorem rotate_events_nonempty (db : DB) (id : String) (now : Nat) (dbA : DB)
    (evs : List Event) (h : rotate_op id now db = .ok (dbA, evs)) : evs ≠ [] := by
  unfold rotate_op at h
  cases hr : rotate_to_next_page db id now with
  | error e => rw [hr] at h; simp at h
  | ok r =>
      obtain ⟨dbB, evsB, i, t⟩ := r
      rw [hr] at h
      simp only [Except.ok.injEq, Prod.mk.injEq] at h
      obtain ⟨-, h2⟩ := h
      subst h2
      unfold rotate_to_next_page at hr
      repeat' split at hr
      all_goals (try simp at hr)
      all_goals (obtain ⟨h1, h3, h4⟩ := hr; subst h3; simp)

/-- A successful stop-rotation emits events. -/
theorem stopRot_events_nonempty (db : DB) (id : String) (now : Nat) (dbA : DB)
    (evs : List Event) (h : stop_page_rotation db id now = .ok (dbA, evs)) : evs ≠ [] := by
  unfold stop_page_rotation at h
  repeat' split at h
  all_goals (try simp at h)
  all_goals (obtain ⟨h1, h2⟩ := h; subst h2; simp)

/-- A successful block emits events. -/
theorem block_events_nonempty (db : DB) (id : String) (now : Nat) (dbA : DB)
    (evs : List Event) (h : block_visitor db id now = .ok (dbA, evs)) : evs ≠ [] := by
  unfold block_visitor at h
  repeat' split at h
  all_goals (try simp at h)
  all_goals (obtain ⟨h1, h2⟩ := h; subst h2; simp)

/-- C9: approve, approveWithRotation, rotateNext, stopRotation and block each
satisfy the atomicity contract: either the record is updated and the events
are emitted, or (on a rejected call) neither happens; and a transport-send
failure changes neither the stored state nor the caller's response. -/
theorem C9_atomicity (db : DB) (m : ConnectionManager) (ok okB : Conn → Bool)
    (id : String) (pid : Option String) (pids : List String) (iv : Int) (now : Nat) :
    AtomicContract db m ok okB (fun d => approve_visitor d id pid now) ∧
    AtomicContract db m ok okB (fun d => approve_visitor_with_rotation d id pids iv now) ∧
    AtomicContract db m ok okB (rotate_op id now) ∧
    AtomicContract db m ok okB (fun d => stop_page_rotation d id now) ∧
    AtomicContract db m ok okB (fun d => block_visitor d id now) := by
  refine ⟨?_, ?_, ?_, ?_, ?_⟩
  · obtain ⟨h1, h2, h3, h4⟩ := handle_generic db m ok okB (fun d => approve_visitor d id pid now)
    exact ⟨h1, h2, h3, fun dbA evs he =>
      ⟨h4 dbA evs he, approve_events_nonempty db id pid now dbA evs he⟩⟩
  · obtain ⟨h1, h2, h3, h4⟩ :=
      handle_generic db m ok okB (fun d => approve_visitor_with_rotation d id pids iv now)
    exact ⟨h1, h2, h3, fun dbA evs he =>
      ⟨h4 dbA evs he, approveRot_events_nonempty db id pids iv now dbA evs he⟩⟩
  · obtain ⟨h1, h2, h3, h4⟩ := handle_generic db m ok okB (rotate_op id now)
    exact ⟨h1, h2, h3, fun dbA evs he =>
      ⟨h4 dbA evs he, rotate_events_nonempty db id now dbA evs he⟩⟩
  · obtain ⟨h1, h2, h3, h4⟩ := handle_generic db m ok okB (fun d => stop_page_rotation d id now)
    exact ⟨h1, h2, h3, fun dbA evs he =>
      ⟨h4 dbA evs he, stopRot_events_nonempty db id now dbA evs he⟩⟩
  · obtain ⟨h1, h2, h3, h4⟩ := handle_generic db m ok okB (fun d => block_visitor d id now)
    exact ⟨h1, h2, h3, fun dbA evs he =>
      ⟨h4 dbA evs he, block_events_nonempty db id now dbA evs he⟩⟩

/-- C9 witness: the block contract applied to a rejected call on the empty
store — nothing is stored and nothing is emitted. -/
theorem C9_atomicity_witness :
    effDB emptyDB (block_visitor emptyDB "x" 0) = emptyDB ∧
    effEvents (block_visitor emptyDB "x" 0) = [] :=
  (C9_atomicity emptyDB emptyManager (fun _ => true) (fun _ => false)
      "x" none [] 0 0).2.2.2.2.2.2.1 .notFound (by decide)

-- ── C10 ──────────────────────────────────────────────────────────────────────

/-- RotInv transfers along equal rotation fields. -/
theorem RotInv_of_fields {v w : Visitor} (h : RotInv v)
    (hrot : w.is_rotating = v.is_rotating)
    (hp : w.rotation_pages = v.rotation_pages)
    (hi : w.current_page_index = v.current_page_index) : RotInv w := by
  intro hb
  obtain ⟨pages, h1, h2, h3, h4⟩ := h (by rw [← hrot]; exact hb)
  exact ⟨pages, by rw [hp]; exact h1, h2, h3, by rw [hi]; exact h4⟩

/-- Every API step preserves the rotation invariant of all stored records:
only approveWithRotation turns is_rotating on (after validating 2-6 existing
pages, with index 0), rotateNext keeps the index below the length, and every
other operation leaves the rotation fields alone or switches rotation off. -/
theorem step_preserves_RotInv {db db' : DB}
    (ih : ∀ v ∈ db.visitors, RotInv v) (hs : Step db db') :
    ∀ v ∈ db'.visitors, RotInv v := by
  cases hs with
  | register sid newId ua now =>
      intro v hv
      unfold register_visitor at hv
      cases hfind : find_visitor_by_session db sid with
      | some ex =>
          simp only [hfind] at hv
          rcases mem_updateFirst hv with h | ⟨y, hy, rfl⟩
          · exact ih v h
          · exact RotInv_of_fields (ih y (List.mem_of_find?_eq_some hy)) rfl rfl rfl
      | none =>
          simp only [hfind] at hv
          rcases List.mem_append.mp hv with h | h
          · exact ih v h
          · intro hb
            simp only [List.mem_singleton] at h
            rw [h] at hb
            simp at hb
  | approve id pid now =>
      intro v hv
      cases hfind : find_visitor_by_id db id with
      | none =>
          simp only [effDB, approve_visitor, hfind] at hv
          exact ih v hv
      | some v0 =>
          simp only [effDB, approve_visitor, hfind] at hv
          rcases mem_updateFirst hv with h | ⟨y, hy, rfl⟩
          · exact ih v h
          · cases hsp : strTruthy pid with
            | none =>
                simp only [hsp]
                exact RotInv_of_fields (ih y (List.mem_of_find?_eq_some hy)) rfl rfl rfl
            | some p =>
                simp only [hsp]
                exact RotInv_of_fields (ih y (List.mem_of_find?_eq_some hy)) rfl rfl rfl
  | approveRot id pids iv now =>
      intro v hv
      cases hfind : find_visitor_by_id db id with
      | none =>
          simp only [effDB, approve_visitor_with_rotation, hfind] at hv
          exact ih v hv
      | some v0 =>
          by_cases hc1 : (pids.isEmpty || decide (pids.length < 2) || decide (pids.length > 6)) = true
          · have hred : effDB db (approve_visitor_with_rotation db id pids iv now) = db := by
              simp [approve_visitor_with_rotation, hfind, hc1, effDB]
            rw [hred] at hv
            exact ih v hv
          · have hc1f : (pids.isEmpty || decide (pids.length < 2) || decide (pids.length > 6)) = false := by
              simpa using hc1
            by_cases hc2 : (pids.any fun pid => (find_page db pid).isNone) = true
            · have hred : effDB db (approve_visitor_with_rotation db id pids iv now) = db := by
                simp [approve_visitor_with_rotation, hfind, hc1f, hc2, effDB]
              rw [hred] at hv
              exact ih v hv
            · have hc2f : (pids.any fun pid => (find_page db pid).isNone) = false := by
                simpa using hc2
              have hred : (effDB db (approve_visitor_with_rotation db id pids iv now)).visitors
                  = updateFirst (fun w => w.id == id) (fun w => { w with status := "approved", last_seen := now, rotation_pages := some pids, rotation_interval := iv, current_page_index := 0, is_rotating := true }) db.visitors := by
                simp [approve_visitor_with_rotation, hfind, hc1f, hc2f, effDB]
              rw [hred] at hv
              rcases mem_updateFirst hv with h | ⟨y, hy, rfl⟩
              · exact ih v h
              · intro hb
                have hl2 : ¬ pids.length < 2 := fun hlt => hc1 (by simp [hlt])
                have hl6 : ¬ pids.length > 6 := fun hgt => hc1 (by simp [hgt])
                exact ⟨pids, rfl, by omega, by omega, by show 0 < pids.length; omega⟩
  | rotate id now =>
      intro v hv
      cases hfind : find_visitor_by_id db id with
      | none =>
          simp only [effDB3, rotate_to_next_page, hfind] at hv
          exact ih v hv
      | some v0 =>
          by_cases hrot : v0.is_rotating = true
          · cases hp : v0.rotation_pages with
            | none =>
                have hred : rotate_to_next_page db id now = .error .pyError := by
                  simp [rotate_to_next_page, hfind, hrot, hp]
                rw [hred] at hv
                simp only [effDB3] at hv
                exact ih v hv
            | some pages =>
                by_cases hlen : pages.length = 0
                · have hred : rotate_to_next_page db id now = .error .pyError := by
                    simp [rotate_to_next_page, hfind, hrot, hp, hlen]
                  rw [hred] at hv
                  simp only [effDB3] at hv
                  exact ih v hv
                · have hred : (effDB3 db (rotate_to_next_page db id now)).visitors
                      = updateFirst (fun w => w.id == id) (fun w => { w with current_page_index := (v0.current_page_index + 1) % pages.length, last_seen := now }) db.visitors := by
                    simp only [rotate_to_next_page, hfind, hrot, Bool.not_true,
                      Bool.false_eq_true, if_false, hp, dif_neg hlen, effDB3]
                  rw [hred] at hv
                  rcases mem_updateFirst hv with h | ⟨y, hy, rfl⟩
                  · exact ih v h
                  · intro hb
                    have hyv : y = v0 := by
                      have hfind2 : List.find? (fun w => w.id == id) db.visitors = some v0 := hfind
                      rw [hfind2] at hy
                      exact (Option.some.inj hy).symm
                    subst hyv
                    obtain ⟨pages2, hp2, h2, h6, -⟩ :=
                      ih y (List.mem_of_find?_eq_some hfind) hrot
                    rw [hp] at hp2
                    obtain rfl := Option.some.inj hp2
                    exact ⟨pages, hp, h2, h6,
                      Nat.mod_lt _ (Nat.pos_of_ne_zero hlen)⟩
          · have hrotf : v0.is_rotating = false := by simpa using hrot
            have hred : rotate_to_next_page db id now = .error .invalidState := by
              simp [rotate_to_next_page, hfind, hrotf]
            rw [hred] at hv
            simp only [effDB3] at hv
            exact ih v hv
  | stopRot id now =>
      intro v hv
      cases hfind : find_visitor_by_id db id with
      | none =>
          simp only [effDB, stop_page_rotation, hfind] at hv
          exact ih v hv
      | some v0 =>
          simp only [effDB, stop_page_rotation, hfind] at hv
          rcases mem_updateFirst hv with h | ⟨y, hy, rfl⟩
          · exact ih v h
          · intro hb
            simp at hb
  | block id now =>
      intro v hv
      cases hfind : find_visitor_by_id db id with
      | none =>
          simp only [effDB, block_visitor, hfind] at hv
          exact ih v hv
      | some v0 =>
          simp only [effDB, block_visitor, hfind] at hv
          rcases mem_updateFirst hv with h | ⟨y, hy, rfl⟩
          · exact ih v h
          · exact RotInv_of_fields (ih y (List.mem_of_find?_eq_some hy)) rfl rfl rfl
  | deleteV id =>
      intro v hv
      simp only [delete_visitor] at hv
      exact ih v (List.mem_of_mem_eraseP hv)
  | createP newId name content d now =>
      intro v hv
      by_cases hd : d = true
      · simp [create_page, hd] at hv
        exact ih v hv
      · have hd2 : d = false := by simpa using hd
        simp [create_page, hd2] at hv
        exact ih v hv
  | updateP pid n c d now =>
      intro v hv
      cases hd : d with
      | none =>
          simp [update_page, hd] at hv
          exact ih v hv
      | some b =>
          cases b
          · simp [update_page, hd] at hv
            exact ih v hv
          · simp [update_page, hd] at hv
            exact ih v hv
  | deleteP pid =>
      intro v hv
      simp only [delete_page] at hv
      exact ih v hv

/-- C10: in every store reachable through the API from the empty store, a
record with is_rotating = true holds a rotation_pages list of 2 to 6 entries
with current_page_index in range; consequently rotateNext can never hit its
ZeroDivisionError / IndexError path (modelled as Err.pyError) on a reachable
store. -/
theorem C10_rotation_safety (db : DB) (hreach : Reachable db) :
    (∀ v ∈ db.visitors, RotInv v) ∧
    (∀ id now, rotate_to_next_page db id now ≠ .error .pyError) := by
  have hinv : ∀ v ∈ db.visitors, RotInv v := by
    induction hreach with
    | init => intro v hv; simp [emptyDB] at hv
    | step hr hs ih => exact step_preserves_RotInv ih hs
  refine ⟨hinv, ?_⟩
  intro id now hcontra
  cases hfind : find_visitor_by_id db id with
  | none => simp [rotate_to_next_page, hfind] at hcontra
  | some v0 =>
      by_cases hrot : v0.is_rotating = true
      · obtain ⟨pages, hp, h2, h6, hidx⟩ :=
          hinv v0 (List.mem_of_find?_eq_some hfind) hrot
        have hlen : ¬ pages.length = 0 := by omega
        simp only [rotate_to_next_page, hfind, hrot, Bool.not_true, Bool.false_eq_true,
          if_false, hp, dif_neg hlen] at hcontra
        simp at hcontra
      · have hrotf : v0.is_rotating = false := by simpa using hrot
        simp [rotate_to_next_page, hfind, hrotf] at hcontra

/-- C10 witness: the safety consequence at the (trivially reachable) empty
store. -/
theorem C10_rotation_safety_witness :
    rotate_to_next_page emptyDB "x" 0 ≠ .error .pyError :=
  (C10_rotation_safety emptyDB Reachable.init).2 "x" 0

end AP
